import Mathlib

/-!
Shallow embedding of `src/keep/providers/datadog_provider/datadog_provider.py`,
the Datadog provider of the Keep alerting platform.  The embedding covers the
alert-normalization pipeline (`_get_alerts` for the polled path and
`format_alert` for the webhook path), the severity mapping
(`__get_parsed_severity`), the fingerprint assignment, and the webhook
provisioner (`setup_webhook`).  Vendor HTTP calls are modelled as explicit
inputs (the pre-fetched monitor list, the polled event batch, the vendor-side
webhook registry); a Python exception during the normalization of one record is
modelled as `none`.
-/

namespace Datadog

/-- Split a character list on a separator character: always at least one
(possibly empty) group, one more group per separator occurrence. -/
def splitOnCharList (sep : Char) : List Char → List (List Char)
  | [] => [[]]
  | c :: rest =>
    match splitOnCharList sep rest with
    | g :: gs => if c = sep then [] :: g :: gs else (c :: g) :: gs
    | [] => if c = sep then [[], []] else [[c]]

/-- Python `s.split(sep)` for a one-character separator (the only kind this
provider uses: space, comma, colon). -/
def pySplitChar (sep : Char) (s : String) : List String :=
  (splitOnCharList sep s.toList).map String.mk

/-- Python `s.split(" ", 2)`: split on single spaces, at most two splits, so at
most three parts; empty parts between consecutive spaces are kept. -/
def pySplitSpace2 (s : String) : List String :=
  match pySplitChar ' ' s with
  | a :: b :: c :: rest => [a, b, String.intercalate " " (c :: rest)]
  | l => l

/-- Python `tag.split(":", 1)` on a string known to contain a colon: the part
before the first colon and everything after it. -/
def pySplitColonOnce (s : String) : String × String :=
  match pySplitChar ':' s with
  | a :: b :: rest => (a, String.intercalate ":" (b :: rest))
  | _ => (s, "")

/-- Digit accumulation for `pyToInt`. -/
def natOfDigitsAux : List Char → Nat → Option Nat
  | [], acc => some acc
  | c :: rest, acc =>
    if c.isDigit then natOfDigitsAux rest (acc * 10 + (c.toNat - '0'.toNat))
    else none

/-- Python `int(s)` on a decimal string: an optional minus sign followed by at
least one digit; anything else raises (`none`). -/
def pyToInt (s : String) : Option Int :=
  match s.toList with
  | [] => none
  | '-' :: rest =>
    match rest with
    | [] => none
    | _ => (natOfDigitsAux rest 0).map (fun n => -(n : Int))
  | cs => (natOfDigitsAux cs 0).map (fun n => (n : Int))

/-- Python `s.lstrip("[")`: drop every leading `[`. -/
def pyLStripBracket (s : String) : String :=
  String.mk (s.toList.dropWhile (fun c => c = '['))

/-- Python `s.rstrip("]")`: drop every trailing `]`. -/
def pyRStripBracket (s : String) : String :=
  String.mk ((s.toList.reverse.dropWhile (fun c => c = ']')).reverse)

/-- `s.lstrip("[").rstrip("]")` as used on the severity and status tokens. -/
def stripBrackets (s : String) : String := pyRStripBracket (pyLStripBracket s)

/-- One insertion into a Python dict: an existing key is overwritten in place
(keeping its first-insertion position), a new key is appended. -/
def dictSet (d : List (String × String)) (kv : String × String) :
    List (String × String) :=
  if d.any (fun p => p.1 = kv.1) then
    d.map (fun p => if p.1 = kv.1 then kv else p)
  else d ++ [kv]

/-- A Python dict comprehension over a list of key/value pairs
(last-write-wins, first-insertion order). -/
def buildDict (ps : List (String × String)) : List (String × String) :=
  ps.foldl dictSet []

/-- `DatadogProvider.__get_parsed_severity`: P1–P4 map to
critical/high/medium/low; any other priority falls off the `elif` chain and
returns Python `None`. -/
def getParsedSeverity (priority : String) : Option String :=
  if priority = "P1" then some "critical"
  else if priority = "P2" then some "high"
  else if priority = "P3" then some "medium"
  else if priority = "P4" then some "low"
  else none

/-- `DatadogProvider.FINGERPRINT_FIELDS`. -/
def FINGERPRINT_FIELDS : List String := ["groups", "monitor_id"]

/-- The platform's canonical alert (`AlertDto`); fields the Datadog provider
sets.  Fields absent from a payload are `none`. -/
structure AlertDto where
  id : Option String
  name : String
  status : String
  severity : Option String
  lastReceived : String
  message : Option String
  monitor_id : Option String
  groups : List String
  source : List String
  tags : List (String × String)
  url : Option String
  created_by : Option String
  fingerprint : String
  deriving Repr, DecidableEq

/-- String rendering of one alert field, as consumed by the fingerprint
combination rule; only the fields this provider fingerprints on are needed. -/
def alertFieldValue (a : AlertDto) (f : String) : String :=
  if f = "groups" then "[" ++ String.intercalate "," a.groups ++ "]"
  else if f = "monitor_id" then a.monitor_id.getD "none"
  else ""

/-- Modelled from the spec: `BaseProvider.get_alert_fingerprint` is not part of
this repository fragment (only its call sites are).  The spec describes it as a
pure, deterministic combination of the values of exactly the given fields in
the given order; we model that combination as an intercalation of the rendered
field values. -/
def get_alert_fingerprint (a : AlertDto) (fields : List String) : String :=
  String.intercalate "|" (fields.map (alertFieldValue a))

/-- Modelled from the spec: `BaseProvider.fingerprint_fields` (used by
`_get_alerts` via `self.fingerprint_fields`) resolves to the provider's
declared `FINGERPRINT_FIELDS`. -/
def fingerprint_fields : List String := FINGERPRINT_FIELDS

/-- `alert.fingerprint = get_alert_fingerprint(alert, FINGERPRINT_FIELDS)`,
the last step of both normalization paths. -/
def finalize (alert : AlertDto) : AlertDto :=
  { alert with fingerprint := get_alert_fingerprint alert FINGERPRINT_FIELDS }

/-- A matching downtime attached to a monitor (`monitor.matching_downtimes`
entries). -/
structure Downtime where
  groups : List String
  scope : List String
  deriving Repr, DecidableEq

/-- `monitor.creator`. -/
structure Creator where
  email : String
  deriving Repr, DecidableEq

/-- A Datadog monitor as returned by `list_monitors(with_downtimes=True)`. -/
structure Monitor where
  id : String
  creator : Option Creator
  matching_downtimes : List Downtime
  deriving Repr, DecidableEq

/-- A polled Datadog event as returned by `list_events`.  `date_happened` is
`none` when the field is missing (Python `event.get` returns `None`, and
`datetime.fromtimestamp(None)` raises). -/
structure PolledEvent where
  id : String
  title : String
  text : String
  tags : List String
  date_happened : Option Int
  monitor_id : String
  monitor_groups : List String
  deriving Repr, DecidableEq

/-- Stand-in for `datetime.fromtimestamp(t).isoformat()`: the datetime library
is external; we model its output as a deterministic injective rendering of the
epoch timestamp. -/
def isoOfEpoch (t : Int) : String := "iso:" ++ toString t

/-- The polled-path tag parse: keep only tags containing `:`, split each on
the first `:`, build a dict.  (`":" in tag` guarantees the split yields a
pair, so this step never raises.) -/
def parsePolledTags (tags : List String) : List (String × String) :=
  buildDict
    ((tags.filter (fun t => decide (2 ≤ (pySplitChar ':' t).length))).map
      pySplitColonOnce)

/-- `is_muted` in `_get_alerts`: some matching downtime has
`groups == event.monitor_groups` or `scope == ["*"]`. -/
def eventMuted (monitor : Monitor) (event : PolledEvent) : Bool :=
  monitor.matching_downtimes.any
    (fun d => d.groups == event.monitor_groups || d.scope == ["*"])

/-- The `AlertDto(...)` construction of `_get_alerts` (before the fingerprint
is assigned).  `created_by` follows `monitor.creator.email if monitor and
monitor.creator else None`; the `monitor` conjunct is always truthy here
because `monitor.matching_downtimes` was already accessed. -/
def mkPolledAlert (event : PolledEvent) (monitor : Monitor)
    (severity : Option String) (status title received : String) : AlertDto :=
  { id := some event.id
    name := title
    status := if eventMuted monitor event then "Muted" else status
    severity := severity
    lastReceived := received
    message := some event.text
    monitor_id := some event.monitor_id
    groups := event.monitor_groups
    source := ["datadog"]
    tags := parsePolledTags event.tags
    url := none
    created_by := match monitor.creator with
      | some c => some c.email
      | none => none
    fingerprint := "" }

/-- The per-event body of the `for event in events` loop of
`DatadogProvider._get_alerts` (the pre-fetched `all_monitors` mapping is the
`monitors` argument).  `none` models a Python exception, which the loop
catches, logs and skips: a title that does not split into three parts
(`ValueError` on unpacking), a missing `date_happened`
(`TypeError` in `fromtimestamp`), or a monitor id absent from `all_monitors`
(`AttributeError`: `monitor` is `None` when `monitor.matching_downtimes` is
read). -/
def normalizeEvent (monitors : List Monitor) (event : PolledEvent) :
    Option AlertDto :=
  match pySplitSpace2 event.title with
  | [sevTok, statusTok, title] =>
    match event.date_happened with
    | none => none
    | some dh =>
      match monitors.find? (fun m => m.id == event.monitor_id) with
      | none => none
      | some monitor =>
        some (finalize (mkPolledAlert event monitor
          (getParsedSeverity (stripBrackets sevTok))
          (stripBrackets statusTok) title (isoOfEpoch dh)))
  | _ => none

/-- The whole polled batch: each event is normalized independently; a failing
event is skipped and the loop continues. -/
def getAlerts (monitors : List Monitor) (events : List PolledEvent) :
    List AlertDto :=
  events.filterMap (normalizeEvent monitors)

/-- The bracket-stripped status token of a polled event's title (the value
`_get_alerts` uses when the event is not muted). -/
def parsedStatusToken (event : PolledEvent) : String :=
  match pySplitSpace2 event.title with
  | [_, statusTok, _] => stripBrackets statusTok
  | _ => ""

/-- A Datadog webhook payload, as rendered by the `WEBHOOK_PAYLOAD` template.
Every field is optional: `format_alert` reads them through `event.get`. -/
structure WebhookPayload where
  body : Option String
  last_updated : Option String
  title : Option String
  severity : Option String
  scopes : Option String
  url : Option String
  tags : Option String
  id : Option String
  monitor_id : Option String
  deriving Repr, DecidableEq

/-- Python `list.remove(x)`: delete the first occurrence of `x`, or raise
`ValueError` (`none`) when `x` is absent. -/
def pyRemove (x : String) : List String → Option (List String)
  | [] => none
  | a :: rest =>
    if a = x then some rest else (pyRemove x rest).map (fun l => a :: l)

/-- Unpacking `k, v = parts` in the dict comprehension of `format_alert`:
anything but exactly two parts raises (`none`). -/
def unpackPair (parts : List String) : Option (String × String) :=
  match parts with
  | [k, v] => some (k, v)
  | _ => none

/-- Lines 632–634 of `format_alert`: split the flat tags string on commas,
remove the first literal `"monitor"` token (raising if absent), then split
each remaining token on every `:` and unpack into a key/value pair (raising
unless exactly one colon), building a dict. -/
def parseWebhookTags (s : String) : Option (List (String × String)) :=
  match pyRemove "monitor" (pySplitChar ',' s) with
  | none => none
  | some l =>
    match l.mapM (fun t => unpackPair (pySplitChar ':' t)) with
    | none => none
    | some ps => some (buildDict ps)

/-- Stand-in for `str(datetime.fromtimestamp(int(ms) / 1000))`: the datetime
library is external; we model its output as a deterministic rendering of the
epoch-second timestamp. -/
def strOfEpochMs (ms : Int) : String := "dt:" ++ toString (ms / 1000)

/-- The `AlertDto(...)` construction of `format_alert` (before the fingerprint
is assigned).  `url` is the value `event.pop("url", None)` returned; the pop
only removes the `url` key, and every field read after it (`scopes`, `id`,
`body`, `severity`, `monitor_id`) is unaffected, so all reads are taken from
the original payload. -/
def mkWebhookAlert (event : WebhookPayload) (tags : List (String × String))
    (ms : Int) (sevTok statusTok title : String) : AlertDto :=
  { id := event.id
    name := title
    status := stripBrackets statusTok
    severity := getParsedSeverity (event.severity.getD sevTok)
    lastReceived := strOfEpochMs ms
    message := event.body
    monitor_id := event.monitor_id
    groups :=
      if event.scopes.getD "" = "" then ["*"]
      else pySplitChar ',' (event.scopes.getD "")
    source := ["datadog"]
    tags := tags
    url := event.url
    created_by := none
    fingerprint := "" }

/-- `DatadogProvider.format_alert`, the webhook normalization path.  The
second component is the caller's payload after the call (`event.pop("url",
None)` mutates it); the first is `none` when the Python code raises: tag
parsing (no `"monitor"` token, or a token without exactly one colon), the
`int(event.get("last_updated"))` conversion, a missing title, or a title that
does not split into three parts.  All those failure points precede the `pop`,
so a failing call leaves the payload untouched. -/
def format_alert (event : WebhookPayload) :
    Option AlertDto × WebhookPayload :=
  match parseWebhookTags (event.tags.getD "") with
  | none => (none, event)
  | some tags =>
    match pyToInt (event.last_updated.getD "") with
    | none => (none, event)
    | some ms =>
      match event.title with
      | none => (none, event)
      | some t =>
        match pySplitSpace2 t with
        | [sevTok, statusTok, title] =>
          (some (finalize (mkWebhookAlert event tags ms sevTok statusTok title)),
            { event with url := none })
        | _ => (none, event)

/-- The severity token of a webhook payload's title as `format_alert` parses
it: the first whitespace token of the three-way split, used raw (without
bracket stripping) as the fallback when the payload has no `severity`
field. -/
def webhookTitleSeverityToken (event : WebhookPayload) : String :=
  match pySplitSpace2 (event.title.getD "") with
  | [sevTok, _, _] => sevTok
  | _ => ""

/-- `DatadogProviderAuthConfig.KEEP_DATADOG_WEBHOOK_INTEGRATION_NAME`. -/
def KEEP_DATADOG_WEBHOOK_INTEGRATION_NAME : String :=
  "keep-datadog-webhook-integration"

/-- One vendor-side webhook registration (name and target URL; the headers and
payload template do not affect the provisioning control flow). -/
structure WebhookRegistration where
  name : String
  url : String
  deriving Repr, DecidableEq

/-- The vendor-side webhook registry, modelling the Datadog webhooks
integration API state. -/
abbrev RegistryState := List WebhookRegistration

/-- `get_webhooks_integration`: `none` models the `NotFoundException`. -/
def getWebhook (st : RegistryState) (name : String) :
    Option WebhookRegistration :=
  st.find? (fun w => w.name == name)

/-- `update_webhooks_integration`: rewrite the target URL of the named
registration in place. -/
def updateWebhook (st : RegistryState) (name url : String) : RegistryState :=
  st.map (fun w => if w.name = name then { w with url := url } else w)

/-- `create_webhooks_integration`: add a new registration. -/
def createWebhook (st : RegistryState) (name url : String) : RegistryState :=
  st ++ [⟨name, url⟩]

/-- Which vendor mutations a `setup_webhook` call performed. -/
structure SetupActions where
  updated : Bool
  created : Bool
  deriving Repr, DecidableEq

/-- `DatadogProvider.setup_webhook` (the webhook-registration upsert; the
optional monitor-message patching is a separate, independent loop).  Look up
the registration named by the fixed prefix plus the tenant id; if found and
its URL differs, update it; if found with the desired URL, do nothing; if
absent, create it. -/
def setup_webhook (st : RegistryState) (tenant_id keep_api_url : String) :
    RegistryState × SetupActions :=
  let webhook_name := KEEP_DATADOG_WEBHOOK_INTEGRATION_NAME ++ "-" ++ tenant_id
  match getWebhook st webhook_name with
  | some webhook =>
    if webhook.url ≠ keep_api_url then
      (updateWebhook st webhook.name keep_api_url,
        { updated := true, created := false })
    else (st, { updated := false, created := false })
  | none =>
    (createWebhook st webhook_name keep_api_url,
      { updated := false, created := true })

/-- A Canonical Alert produced by one of the two normalization paths. -/
def producedAlert (a : AlertDto) : Prop :=
  (∃ monitors event, normalizeEvent monitors event = some a) ∨
  (∃ payload rest, format_alert payload = (some a, rest))

/-- An all-default alert used as the `Option.getD` fallback when naming the
concrete outputs of the normalizers in witness statements. -/
def emptyAlert : AlertDto :=
  { id := none, name := "", status := "", severity := none, lastReceived := ""
    message := none, monitor_id := none, groups := [], source := []
    tags := [], url := none, created_by := none, fingerprint := "" }

/-- A well-formed monitor used by the concrete polled-path inputs. -/
def sampleMonitor : Monitor :=
  { id := "42", creator := some ⟨"creator@example.com"⟩
    matching_downtimes := [] }

/-- A monitor whose only matching downtime has `groups` equal to the sample
event's `monitor_groups` (so the event is muted). -/
def mutedMonitor : Monitor :=
  { id := "42", creator := some ⟨"creator@example.com"⟩
    matching_downtimes := [{ groups := ["host:web-1"], scope := ["env:x"] }] }

/-- A well-formed polled event owned by monitor `"42"`. -/
def sampleEvent : PolledEvent :=
  { id := "evt-1", title := "[P1] [Alert] CPU high", text := "cpu is high"
    tags := ["env:prod", "team:sre"], date_happened := some 1700000000
    monitor_id := "42", monitor_groups := ["host:web-1"] }

/-- A second well-formed polled event owned by monitor `"42"`. -/
def sampleEvent2 : PolledEvent :=
  { id := "evt-2", title := "[P3] [Warn] Disk low", text := "disk"
    tags := ["env:prod"], date_happened := some 1700000100
    monitor_id := "42", monitor_groups := ["host:web-2"] }

/-- A malformed polled event: its title has fewer than three
whitespace-separated parts, so unpacking `severity, status, title` raises. -/
def malformedEvent : PolledEvent :=
  { id := "evt-bad", title := "oneword", text := "boom"
    tags := [], date_happened := some 1700000200
    monitor_id := "42", monitor_groups := [] }

/-- A polled event with an unrecognized severity code `[P9]`. -/
def p9Event : PolledEvent :=
  { id := "evt-p9", title := "[P9] [Alert] odd severity", text := "odd"
    tags := [], date_happened := some 1700000300
    monitor_id := "42", monitor_groups := ["host:web-1"] }

/-- A polled event whose `monitor_id` resolves to no monitor in the
pre-fetched mapping. -/
def orphanEvent : PolledEvent :=
  { id := "evt-orphan", title := "[P1] [Alert] lost monitor", text := "lost"
    tags := [], date_happened := some 1700000400
    monitor_id := "999", monitor_groups := ["host:web-1"] }

/-- A well-formed webhook payload whose tags string carries the `"monitor"`
marker token, whose `monitor_id` and `scopes` agree with `sampleEvent`, and
which carries an explicit `severity` field. -/
def samplePayload : WebhookPayload :=
  { body := some "cpu is high", last_updated := some "1700000000000"
    title := some "[P1] [Alert] CPU high", severity := some "P1"
    scopes := some "host:web-1", url := some "https://dd.example/1"
    tags := some "monitor,env:prod,team:sre", id := some "evt-1"
    monitor_id := some "42" }

/-- A webhook payload with no explicit `severity` field. -/
def noSeverityPayload : WebhookPayload :=
  { body := some "disk", last_updated := some "1700000100000"
    title := some "[P2] [Warn] Disk low", severity := none
    scopes := some "host:web-2", url := some "https://dd.example/2"
    tags := some "monitor,env:prod", id := some "evt-2"
    monitor_id := some "43" }

/-- A webhook payload whose comma-delimited tags string does not contain the
literal token `"monitor"` (and whose `url` key is present). -/
def noMarkerPayload : WebhookPayload :=
  { body := some "b", last_updated := some "1700000200000"
    title := some "[P2] [Warn] Disk low", severity := none
    scopes := some "host:web-3", url := some "https://dd.example/3"
    tags := some "env:prod,team:sre", id := some "evt-3"
    monitor_id := some "44" }

/-! ### Helper lemmas -/

lemma finalize_status (x : AlertDto) : (finalize x).status = x.status := rfl

lemma finalize_fingerprint (x : AlertDto) :
    (finalize x).fingerprint =
      get_alert_fingerprint x FINGERPRINT_FIELDS := rfl

lemma get_alert_fingerprint_pair (a : AlertDto) :
    get_alert_fingerprint a FINGERPRINT_FIELDS =
      String.intercalate "|"
        ["[" ++ String.intercalate "," a.groups ++ "]",
          a.monitor_id.getD "none"] := rfl

lemma fp_congr (A B : AlertDto) (hg : A.groups = B.groups)
    (hm : A.monitor_id = B.monitor_id) :
    get_alert_fingerprint A FINGERPRINT_FIELDS =
      get_alert_fingerprint B FINGERPRINT_FIELDS := by
  rw [get_alert_fingerprint_pair, get_alert_fingerprint_pair, hg, hm]

lemma normalizeEvent_inv (monitors : List Monitor) (event : PolledEvent)
    (a : AlertDto) (h : normalizeEvent monitors event = some a) :
    ∃ sevTok statusTok title dh monitor,
      pySplitSpace2 event.title = [sevTok, statusTok, title] ∧
      event.date_happened = some dh ∧
      monitors.find? (fun m => m.id == event.monitor_id) = some monitor ∧
      a = finalize (mkPolledAlert event monitor
        (getParsedSeverity (stripBrackets sevTok))
        (stripBrackets statusTok) title (isoOfEpoch dh)) := by
  unfold normalizeEvent at h
  split at h
  next sevTok statusTok title heq =>
    split at h
    next => exact absurd h (by simp)
    next dh hdh =>
      split at h
      next => exact absurd h (by simp)
      next monitor hmon =>
        exact ⟨sevTok, statusTok, title, dh, monitor, heq, hdh, hmon,
          (Option.some.inj h).symm⟩
  next => exact absurd h (by simp)

lemma format_alert_inv (event : WebhookPayload) (a : AlertDto)
    (rest : WebhookPayload) (h : format_alert event = (some a, rest)) :
    ∃ tags ms t sevTok statusTok title,
      parseWebhookTags (event.tags.getD "") = some tags ∧
      pyToInt (event.last_updated.getD "") = some ms ∧
      event.title = some t ∧
      pySplitSpace2 t = [sevTok, statusTok, title] ∧
      a = finalize (mkWebhookAlert event tags ms sevTok statusTok title) ∧
      rest = { event with url := none } := by
  unfold format_alert at h
  split at h
  next => exact absurd h (by simp)
  next tags htags =>
    split at h
    next => exact absurd h (by simp)
    next ms hms =>
      split at h
      next => exact absurd h (by simp)
      next t ht =>
        split at h
        next sevTok statusTok title heq =>
          injection h with h1 h2
          exact ⟨tags, ms, t, sevTok, statusTok, title, htags, hms, ht, heq,
            (Option.some.inj h1).symm, h2.symm⟩
        next => exact absurd h (by simp)

lemma format_alert_none_inv (event rest : WebhookPayload)
    (h : format_alert event = (none, rest)) : rest = event := by
  unfold format_alert at h
  split at h
  next => injection h with h1 h2; exact h2.symm
  next =>
    split at h
    next => injection h with h1 h2; exact h2.symm
    next =>
      split at h
      next => injection h with h1 h2; exact h2.symm
      next =>
        split at h
        next => exact absurd h (by simp)
        next => injection h with h1 h2; exact h2.symm

lemma produced_fingerprint (a : AlertDto) (h : producedAlert a) :
    a.fingerprint = get_alert_fingerprint a FINGERPRINT_FIELDS := by
  rcases h with ⟨ms, e, h⟩ | ⟨p, rest, h⟩
  · obtain ⟨sevTok, statusTok, title, dh, monitor, _, _, _, ha⟩ :=
      normalizeEvent_inv ms e a h
    rw [ha, finalize_fingerprint]
    exact fp_congr _ _ rfl rfl
  · obtain ⟨tags, ms, t, sevTok, statusTok, title, _, _, _, _, ha, _⟩ :=
      format_alert_inv p a rest h
    rw [ha, finalize_fingerprint]
    exact fp_congr _ _ rfl rfl

lemma length_filterMap_eq {α β : Type} (f : α → Option β) (l : List α)
    (h : ∀ e ∈ l, (f e).isSome) : (l.filterMap f).length = l.length := by
  induction l with
  | nil => rfl
  | cons a t ih =>
    have ha := h a (List.mem_cons_self a t)
    cases hfa : f a with
    | none => rw [hfa] at ha; simp at ha
    | some b =>
      simp only [List.filterMap_cons, hfa, List.length_cons]
      exact congrArg (· + 1) (ih (fun e he => h e (List.mem_cons_of_mem a he)))

lemma getWebhook_create (st : RegistryState) (n u : String)
    (h : getWebhook st n = none) :
    getWebhook (createWebhook st n u) n = some ⟨n, u⟩ := by
  unfold getWebhook at h ⊢
  unfold createWebhook
  rw [List.find?_append, h]
  simp [List.find?]

lemma getWebhook_update (st : RegistryState) (n u : String) :
    getWebhook (updateWebhook st n u) n =
      (getWebhook st n).map (fun w => { w with url := u }) := by
  unfold getWebhook updateWebhook
  induction st with
  | nil => rfl
  | cons a t ih =>
    rw [List.map_cons]
    by_cases ha : a.name = n
    · rw [if_pos ha]
      rw [List.find?_cons_of_pos _ (by simpa using ha),
        List.find?_cons_of_pos _ (by simpa using ha)]
      rfl
    · rw [if_neg ha]
      rw [List.find?_cons_of_neg _ (by simpa using ha),
        List.find?_cons_of_neg _ (by simpa using ha)]
      exact ih

lemma setup_webhook_establishes (st : RegistryState) (t u : String) :
    ∃ w, getWebhook (setup_webhook st t u).1
        (KEEP_DATADOG_WEBHOOK_INTEGRATION_NAME ++ "-" ++ t) = some w ∧
      w.url = u := by
  cases hg : getWebhook st (KEEP_DATADOG_WEBHOOK_INTEGRATION_NAME ++ "-" ++ t) with
  | none =>
    refine ⟨⟨KEEP_DATADOG_WEBHOOK_INTEGRATION_NAME ++ "-" ++ t, u⟩, ?_, rfl⟩
    have hstep : (setup_webhook st t u).1 =
        createWebhook st (KEEP_DATADOG_WEBHOOK_INTEGRATION_NAME ++ "-" ++ t) u := by
      simp [setup_webhook, hg]
    rw [hstep]
    exact getWebhook_create st _ u hg
  | some w =>
    by_cases hu : w.url = u
    · refine ⟨w, ?_, hu⟩
      have hstep : (setup_webhook st t u).1 = st := by
        simp [setup_webhook, hg, hu]
      rw [hstep]
      exact hg
    · have hname : w.name = KEEP_DATADOG_WEBHOOK_INTEGRATION_NAME ++ "-" ++ t := by
        have hg' : List.find?
            (fun w : WebhookRegistration =>
              w.name == KEEP_DATADOG_WEBHOOK_INTEGRATION_NAME ++ "-" ++ t) st =
            some w := hg
        have hbeq :=
          List.find?_some
            (p := fun w : WebhookRegistration =>
              w.name == KEEP_DATADOG_WEBHOOK_INTEGRATION_NAME ++ "-" ++ t) hg'
        exact eq_of_beq hbeq
      refine ⟨{ w with url := u }, ?_, rfl⟩
      have hstep : (setup_webhook st t u).1 = updateWebhook st w.name u := by
        simp [setup_webhook, hg, hu]
      rw [hstep, hname, getWebhook_update st _ u, hg]
      simp [hname]

lemma setup_webhook_noop (st : RegistryState) (t u : String)
    (w : WebhookRegistration)
    (hw : getWebhook st (KEEP_DATADOG_WEBHOOK_INTEGRATION_NAME ++ "-" ++ t) =
      some w)
    (hu : w.url = u) :
    setup_webhook st t u = (st, { updated := false, created := false }) := by
  simp [setup_webhook, hw, hu]

/-! ### Claim theorems -/

/-- Claim C1: for every pair of Canonical Alerts produced by either
normalization path (polled `_get_alerts` or webhook `format_alert`), equal
`groups` and equal `monitor_id` force an equal fingerprint, regardless of the
values of all other fields. -/
theorem fingerprint_key_c1 (A B : AlertDto)
    (hA : producedAlert A) (hB : producedAlert B)
    (hg : A.groups = B.groups) (hm : A.monitor_id = B.monitor_id) :
    A.fingerprint = B.fingerprint := by
  rw [produced_fingerprint A hA, produced_fingerprint B hB]
  exact fp_congr A B hg hm

/-- Witness for C1: the polled normalization of `sampleEvent` and the webhook
normalization of `samplePayload` share `groups` and `monitor_id`, hence their
fingerprints coincide, although name, status, message, timestamps, tags and
url all differ. -/
theorem fingerprint_key_c1_witness :
    ((normalizeEvent [sampleMonitor] sampleEvent).getD emptyAlert).fingerprint =
      (((format_alert samplePayload).1).getD emptyAlert).fingerprint :=
  fingerprint_key_c1
    ((normalizeEvent [sampleMonitor] sampleEvent).getD emptyAlert)
    (((format_alert samplePayload).1).getD emptyAlert)
    (Or.inl ⟨[sampleMonitor], sampleEvent, by rfl⟩)
    (Or.inr ⟨samplePayload, (format_alert samplePayload).2, by rfl⟩)
    (by rfl) (by rfl)

/-- Claim C2: in a polled batch, one event whose normalization raises is
skipped while every remaining event is still normalized: the batch output is
the concatenation of the outputs on the two sides of the bad event, and when
every other event normalizes, the batch yields exactly one alert per good
event. -/
theorem batch_partial_failure_c2 (monitors : List Monitor)
    (pre post : List PolledEvent) (bad : PolledEvent)
    (hbad : normalizeEvent monitors bad = none)
    (hgood : ∀ e ∈ pre ++ post, (normalizeEvent monitors e).isSome) :
    getAlerts monitors (pre ++ bad :: post) =
      getAlerts monitors pre ++ getAlerts monitors post ∧
    (getAlerts monitors (pre ++ bad :: post)).length =
      pre.length + post.length := by
  have hsplit : getAlerts monitors (pre ++ bad :: post) =
      getAlerts monitors pre ++ getAlerts monitors post := by
    unfold getAlerts
    rw [List.filterMap_append pre (bad :: post) _]
    congr 1
    simp [List.filterMap_cons, hbad]
  refine ⟨hsplit, ?_⟩
  rw [hsplit]
  unfold getAlerts
  rw [List.length_append,
    length_filterMap_eq _ pre (fun e he => hgood e (List.mem_append_left _ he)),
    length_filterMap_eq _ post (fun e he => hgood e (List.mem_append_right _ he))]

/-- Witness for C2: one malformed event between two well-formed events yields
exactly the two alerts of the well-formed events. -/
theorem batch_partial_failure_c2_witness :
    getAlerts [sampleMonitor] ([sampleEvent] ++ malformedEvent :: [sampleEvent2]) =
      getAlerts [sampleMonitor] [sampleEvent] ++
        getAlerts [sampleMonitor] [sampleEvent2] ∧
    (getAlerts [sampleMonitor]
      ([sampleEvent] ++ malformedEvent :: [sampleEvent2])).length =
      [sampleEvent].length + [sampleEvent2].length :=
  batch_partial_failure_c2 [sampleMonitor] [sampleEvent] [sampleEvent2]
    malformedEvent (by rfl) (by decide)

/-- Claim C3: a normalized polled event has status `"Muted"` exactly when its
resolved monitor has a matching downtime whose `groups` equals the event's
`monitor_groups` or whose `scope` is `["*"]`; otherwise its status is the
bracket-stripped token parsed from the title. -/
theorem muted_status_c3 (monitors : List Monitor) (event : PolledEvent)
    (a : AlertDto) (m : Monitor)
    (hm : monitors.find? (fun mo => mo.id == event.monitor_id) = some m)
    (h : normalizeEvent monitors event = some a) :
    a.status = if eventMuted m event then "Muted" else parsedStatusToken event := by
  obtain ⟨sevTok, statusTok, title, dh, monitor, heq, hdh, hmon, ha⟩ :=
    normalizeEvent_inv monitors event a h
  rw [hm] at hmon
  cases Option.some.inj hmon
  rw [ha, finalize_status]
  have htok : parsedStatusToken event = stripBrackets statusTok := by
    unfold parsedStatusToken
    rw [heq]
  rw [htok]
  rfl

/-- Witness for C3: `sampleEvent`'s title parses to status token `"Alert"`,
but `mutedMonitor` has a downtime whose `groups` equals the event's
`monitor_groups`, so the normalized status is `"Muted"`. -/
theorem muted_status_c3_witness :
    ((normalizeEvent [mutedMonitor] sampleEvent).getD emptyAlert).status =
      if eventMuted mutedMonitor sampleEvent then "Muted"
      else parsedStatusToken sampleEvent :=
  muted_status_c3 [mutedMonitor] sampleEvent
    ((normalizeEvent [mutedMonitor] sampleEvent).getD emptyAlert)
    mutedMonitor (by rfl) (by rfl)

/-- Counterexample for C4: a webhook payload whose comma-delimited tags string
contains only well-formed `key:value` tokens but no literal `"monitor"` token
is not normalized at all — `tags_list.remove("monitor")` raises `ValueError` —
whereas the claim says the marker is discarded only "if present" and the pairs
are returned. -/
theorem webhook_tags_c4_counterexample :
    (format_alert noMarkerPayload).1 = none := by rfl

/-- Claim C4 (amended): `format_alert` splits the tags string on commas and
removes the first occurrence of the literal token `"monitor"`, failing when it
is absent; each remaining token must split on `:` into exactly a key and a
value; the resulting pairs are the alert's tags mapping, and
`"monitor,env:prod,team:sre"` yields `env ↦ prod, team ↦ sre`. -/
theorem webhook_tags_c4 (p : WebhookPayload) (a : AlertDto)
    (rest : WebhookPayload) (h : format_alert p = (some a, rest)) :
    parseWebhookTags (p.tags.getD "") = some a.tags ∧
    parseWebhookTags "monitor,env:prod,team:sre" =
      some [("env", "prod"), ("team", "sre")] := by
  obtain ⟨tags, ms, t, sevTok, statusTok, title, htags, _, _, _, ha, _⟩ :=
    format_alert_inv p a rest h
  refine ⟨?_, by rfl⟩
  rw [ha]
  exact htags

/-- Witness for C4: the tags of the normalized `samplePayload` are exactly the
parse of its tags string (with the `"monitor"` marker dropped). -/
theorem webhook_tags_c4_witness :
    parseWebhookTags (samplePayload.tags.getD "") =
      some (((format_alert samplePayload).1.getD emptyAlert).tags) ∧
    parseWebhookTags "monitor,env:prod,team:sre" =
      some [("env", "prod"), ("team", "sre")] :=
  webhook_tags_c4 samplePayload ((format_alert samplePayload).1.getD emptyAlert)
    (format_alert samplePayload).2 (by rfl)

/-- Claim C5: the webhook path maps severity with the same rule as the polled
path (the shared `getParsedSeverity`), preferring the payload's explicit
`severity` field over the severity token parsed from the three-way title
split, and falling back to that title token when the field is absent. -/
theorem webhook_severity_c5 (p : WebhookPayload) (a : AlertDto)
    (rest : WebhookPayload) (h : format_alert p = (some a, rest)) :
    a.severity =
      getParsedSeverity (p.severity.getD (webhookTitleSeverityToken p)) ∧
    (∀ s, s ≠ "P1" → s ≠ "P2" → s ≠ "P3" → s ≠ "P4" →
      getParsedSeverity s = none) := by
  obtain ⟨tags, ms, t, sevTok, statusTok, title, _, _, ht, hsplit, ha, _⟩ :=
    format_alert_inv p a rest h
  constructor
  · have htok : webhookTitleSeverityToken p = sevTok := by
      unfold webhookTitleSeverityToken
      rw [ht]
      show (match pySplitSpace2 t with
        | [sevTok, _, _] => sevTok
        | _ => "") = sevTok
      rw [hsplit]
    rw [ha, htok]
    rfl
  · intro s h1 h2 h3 h4
    unfold getParsedSeverity
    rw [if_neg h1, if_neg h2, if_neg h3, if_neg h4]

/-- Witness for C5: `samplePayload` carries the explicit severity `"P1"`,
which is preferred and maps to `"critical"`; `"P9"` maps to `none`. -/
theorem webhook_severity_c5_witness :
    ((format_alert samplePayload).1.getD emptyAlert).severity =
      getParsedSeverity
        (samplePayload.severity.getD (webhookTitleSeverityToken samplePayload)) ∧
    getParsedSeverity "P9" = none :=
  ⟨(webhook_severity_c5 samplePayload
      ((format_alert samplePayload).1.getD emptyAlert)
      (format_alert samplePayload).2 (by rfl)).1,
    (webhook_severity_c5 samplePayload
      ((format_alert samplePayload).1.getD emptyAlert)
      (format_alert samplePayload).2 (by rfl)).2 "P9"
      (by decide) (by decide) (by decide) (by decide)⟩

/-- Claim C6 (code bug): a polled event whose `monitor_id` resolves to no
monitor in the pre-fetched mapping does not produce an alert with
`created_by = None` — `monitor.matching_downtimes` is read before the
`if monitor and monitor.creator` guard, so the Python code raises
`AttributeError` on the `None` monitor and the event is skipped; the guard on
`monitor` at the `created_by` assignment is dead code. -/
theorem unresolved_monitor_c6 :
    normalizeEvent [sampleMonitor] orphanEvent = none ∧
    (normalizeEvent [sampleMonitor] sampleEvent).map
      (fun a => a.created_by) = some (some "creator@example.com") := by
  exact ⟨rfl, rfl⟩

/-- Claim C7: the polled event titled `"[P1] [Alert] CPU high"` normalizes to
severity `"critical"`, status `"Alert"` and name `"CPU high"`: the title is
split on whitespace into three parts, the brackets are stripped, and `P1`
maps to critical. -/
theorem polled_title_example_c7 :
    (normalizeEvent [sampleMonitor] sampleEvent).map
      (fun a => (a.severity, a.status, a.name)) =
      some (some "critical", "Alert", "CPU high") := by rfl

/-- Claim C8: every severity token other than P1–P4 maps to `none` without
raising, and an event carrying such a token (`"[P9]"`) is still normalized
into an alert whose severity is `none`. -/
theorem unrecognized_severity_c8 (s : String)
    (h1 : s ≠ "P1") (h2 : s ≠ "P2") (h3 : s ≠ "P3") (h4 : s ≠ "P4") :
    getParsedSeverity s = none ∧
    (normalizeEvent [sampleMonitor] p9Event).map
      (fun a => a.severity) = some none := by
  refine ⟨?_, rfl⟩
  unfold getParsedSeverity
  rw [if_neg h1, if_neg h2, if_neg h3, if_neg h4]

/-- Witness for C8 at the unrecognized token `"P9"`. -/
theorem unrecognized_severity_c8_witness :
    getParsedSeverity "P9" = none ∧
    (normalizeEvent [sampleMonitor] p9Event).map
      (fun a => a.severity) = some none :=
  unrecognized_severity_c8 "P9" (by decide) (by decide) (by decide) (by decide)

/-- Claim C9: provisioning the webhook twice with the same tenant id and
target URL is idempotent — the second call leaves the vendor-side registry
unchanged, performs no update and creates no (duplicate) registration. -/
theorem setup_webhook_idempotent_c9 (st : RegistryState)
    (tenant_id keep_api_url : String) :
    (setup_webhook (setup_webhook st tenant_id keep_api_url).1
      tenant_id keep_api_url).1 =
      (setup_webhook st tenant_id keep_api_url).1 ∧
    (setup_webhook (setup_webhook st tenant_id keep_api_url).1
      tenant_id keep_api_url).2.updated = false ∧
    (setup_webhook (setup_webhook st tenant_id keep_api_url).1
      tenant_id keep_api_url).2.created = false := by
  obtain ⟨w, hw, hu⟩ := setup_webhook_establishes st tenant_id keep_api_url
  rw [setup_webhook_noop _ _ _ w hw hu]
  exact ⟨rfl, rfl, rfl⟩

/-- Witness for C9 on the empty registry: the first call creates the
registration, the second is a no-op. -/
theorem setup_webhook_idempotent_c9_witness :
    (setup_webhook (setup_webhook [] "tenant-1" "https://keep.example").1
      "tenant-1" "https://keep.example").1 =
      (setup_webhook [] "tenant-1" "https://keep.example").1 ∧
    (setup_webhook (setup_webhook [] "tenant-1" "https://keep.example").1
      "tenant-1" "https://keep.example").2.updated = false ∧
    (setup_webhook (setup_webhook [] "tenant-1" "https://keep.example").1
      "tenant-1" "https://keep.example").2.created = false :=
  setup_webhook_idempotent_c9 [] "tenant-1" "https://keep.example"

/-- Counterexample for C10: on a call that fails (here: the tags string has no
`"monitor"` token, so the failure happens before `event.pop("url", None)` is
reached), the input payload still contains its `url` key, whereas the claim
says the key is removed after successful and failed calls alike. -/
theorem webhook_mutation_c10_counterexample :
    (format_alert noMarkerPayload).1 = none ∧
    (format_alert noMarkerPayload).2.url = some "https://dd.example/3" := by
  exact ⟨rfl, rfl⟩

/-- Claim C10 (amended): a successful `format_alert` call removes exactly the
`url` key from the caller's payload and leaves every other key unchanged,
while a failed call leaves the payload fully unchanged (every failure point
precedes the `pop`). -/
theorem webhook_mutation_c10 (p : WebhookPayload) :
    (∀ a rest, format_alert p = (some a, rest) →
      rest = { p with url := none }) ∧
    (∀ rest, format_alert p = (none, rest) → rest = p) := by
  constructor
  · intro a rest h
    obtain ⟨_, _, _, _, _, _, _, _, _, _, _, hrest⟩ := format_alert_inv p a rest h
    exact hrest
  · intro rest h
    exact format_alert_none_inv p rest h

/-- Witness for C10: the successful call on `samplePayload` returns the
payload with only `url` cleared. -/
theorem webhook_mutation_c10_witness :
    (format_alert samplePayload).2 = { samplePayload with url := none } :=
  (webhook_mutation_c10 samplePayload).1
    ((format_alert samplePayload).1.getD emptyAlert)
    (format_alert samplePayload).2 (by rfl)

end Datadog
